import Mathlib

/-!
Verification of the client-side UI script of this repository
(src/js/script.js): a shallow embedding of its seven DOM controllers
(ThemeManager, MobileMenu, BackToTop, NavbarScroll, LazyLoader,
SmoothScroll, CodeCopy) as pure Lean functions over explicit state, and
theorems about the properties its specification states.
-/

set_option autoImplicit false

/-!
## ThemeManager (src/js/script.js lines 67-149)

State observed by the theme code: the two presentation classes on the
document root ("theme-light", "theme-dark"), the persisted preference
string under the localStorage key "theme" (`none` = key absent), and the
three optional selector buttons (`none` = the element is absent from the
page; `some b` = present, with `b` recording whether it carries the
"active" class).
-/

structure ThemeState where
  light : Bool
  dark : Bool
  pref : Option String
  lightBtn : Option Bool
  darkBtn : Option Bool
  autoBtn : Option Bool
deriving Repr, DecidableEq

/-- JavaScript truthiness of the string read from storage:
`null` and the empty string are falsy. -/
def strFalsy : Option String → Bool
  | none => true
  | some t => t = ""

/-- Line 114: `localStorage.getItem("theme") || "auto"` — a falsy read
(absent key or empty string) falls back to "auto". -/
def normTheme (pref : Option String) : String :=
  match pref with
  | none => "auto"
  | some t => if t = "" then "auto" else t

/-- Lines 113-129, with the current value of the storage key passed in
explicitly: reset the "active" class on all three buttons (optional
chaining: absent buttons are untouched), then add it to the button
matching the current theme, "auto" and anything unrecognised activating
the auto button. -/
def ThemeManager.updateActiveButtonCore (cur : Option String) (s : ThemeState) : ThemeState :=
  let currentTheme := normTheme cur
  let s1 := { s with lightBtn := s.lightBtn.map fun _ => false,
                     darkBtn := s.darkBtn.map fun _ => false,
                     autoBtn := s.autoBtn.map fun _ => false }
  if currentTheme = "theme-light" then
    { s1 with lightBtn := s1.lightBtn.map fun _ => true }
  else if currentTheme = "theme-dark" then
    { s1 with darkBtn := s1.darkBtn.map fun _ => true }
  else
    { s1 with autoBtn := s1.autoBtn.map fun _ => true }

/-- Lines 113-129: `updateActiveButton` reads the storage key itself. -/
def ThemeManager.updateActiveButton (s : ThemeState) : ThemeState :=
  ThemeManager.updateActiveButtonCore s.pref s

/-- Lines 93-98: remove "theme-dark", add "theme-light", persist
"theme-light", refresh the active button. -/
def ThemeManager.setLightTheme (s : ThemeState) : ThemeState :=
  ThemeManager.updateActiveButton
    { s with dark := false, light := true, pref := some "theme-light" }

/-- Lines 100-105: remove "theme-light", add "theme-dark", persist
"theme-dark", refresh the active button. -/
def ThemeManager.setDarkTheme (s : ThemeState) : ThemeState :=
  ThemeManager.updateActiveButton
    { s with light := false, dark := true, pref := some "theme-dark" }

/-- Lines 107-111: remove both classes, persist "auto", refresh the
active button. -/
def ThemeManager.setAutoTheme (s : ThemeState) : ThemeState :=
  ThemeManager.updateActiveButton
    { s with light := false, dark := false, pref := some "auto" }

/-- Lines 79-91: dispatch on the stored preference; any value other than
"theme-light" or "theme-dark" (including an absent key) takes the auto
branch. The `systemPrefersDark` read on line 81 is dead. -/
def ThemeManager.loadTheme (s : ThemeState) : ThemeState :=
  if s.pref = some "theme-light" then ThemeManager.setLightTheme s
  else if s.pref = some "theme-dark" then ThemeManager.setDarkTheme s
  else ThemeManager.setAutoTheme s

/-- Lines 137-147: the change listener on the OS color-scheme media
query. `!currentTheme || currentTheme === "auto"` guards the body:
a falsy read (absent key, empty string) or the literal "auto". Inside,
only the dark class is added or removed according to the event. -/
def ThemeManager.osColorSchemeChange (mDark : Bool) (s : ThemeState) : ThemeState :=
  if strFalsy s.pref ∨ s.pref = some "auto" then
    if mDark then { s with dark := true } else { s with dark := false }
  else s

/-- The theme operations named by the specification. -/
inductive ThemeOp where
  | load
  | setLight
  | setDark
  | setAuto
  | osChange (mDark : Bool)
deriving Repr, DecidableEq

def ThemeManager.applyOp : ThemeOp → ThemeState → ThemeState
  | .load, s => ThemeManager.loadTheme s
  | .setLight, s => ThemeManager.setLightTheme s
  | .setDark, s => ThemeManager.setDarkTheme s
  | .setAuto, s => ThemeManager.setAutoTheme s
  | .osChange m, s => ThemeManager.osColorSchemeChange m s

/-- Run a sequence of theme operations left to right. -/
def ThemeManager.run (ops : List ThemeOp) (s : ThemeState) : ThemeState :=
  match ops with
  | [] => s
  | op :: rest => ThemeManager.run rest (ThemeManager.applyOp op s)

/-- The class part of the theme invariant: the two presentation classes
are never both present, and whenever the stored preference is falsy or
"auto" the light class is absent. -/
def ThemeInv (s : ThemeState) : Prop :=
  ¬(s.light = true ∧ s.dark = true) ∧
    ((strFalsy s.pref ∨ s.pref = some "auto") → s.light = false)

instance (s : ThemeState) : Decidable (ThemeInv s) := by
  unfold ThemeInv; infer_instance

/-!
## ThemeManager with fallible storage (claim C4)

src/js/script.js contains no guard and no try/catch around any
localStorage access (lines 80, 96, 103, 109, 114, 138). In an
environment where local persistent storage is unavailable, accessing
the storage API raises (e.g. a SecurityError); with no handler in the
code, that error propagates out of the operation. The embedding makes
every storage access fallible and propagates errors exactly as the
unguarded code does.
-/

def storageErr : String := "storage unavailable"

/-- `localStorage.getItem("theme")`: returns the stored value when
storage is available, raises otherwise. -/
def localStorageGetItem (available : Bool) (pref : Option String) :
    Except String (Option String) :=
  if available then .ok pref else .error storageErr

/-- `localStorage.setItem("theme", v)`: stores when available, raises
otherwise. -/
def localStorageSetItem (available : Bool) (v : String) (s : ThemeState) :
    Except String ThemeState :=
  if available then .ok { s with pref := some v } else .error storageErr

/-- Lines 113-129 with fallible storage: the read on line 114 comes
first; no handler exists, so its error propagates. -/
def ThemeManager.updateActiveButtonE (available : Bool) (s : ThemeState) :
    Except String ThemeState := do
  let cur ← localStorageGetItem available s.pref
  pure (ThemeManager.updateActiveButtonCore cur s)

/-- Lines 93-98 with fallible storage: the class mutations (lines 94-95)
precede the `setItem` on line 96. -/
def ThemeManager.setLightThemeE (available : Bool) (s : ThemeState) :
    Except String ThemeState := do
  let s1 := { s with dark := false, light := true }
  let s2 ← localStorageSetItem available "theme-light" s1
  ThemeManager.updateActiveButtonE available s2

/-- Lines 100-105 with fallible storage. -/
def ThemeManager.setDarkThemeE (available : Bool) (s : ThemeState) :
    Except String ThemeState := do
  let s1 := { s with light := false, dark := true }
  let s2 ← localStorageSetItem available "theme-dark" s1
  ThemeManager.updateActiveButtonE available s2

/-- Lines 107-111 with fallible storage. -/
def ThemeManager.setAutoThemeE (available : Bool) (s : ThemeState) :
    Except String ThemeState := do
  let s1 := { s with light := false, dark := false }
  let s2 ← localStorageSetItem available "auto" s1
  ThemeManager.updateActiveButtonE available s2

/-- Lines 79-91 with fallible storage: the `getItem` on line 80 comes
first; no handler exists, so its error propagates. -/
def ThemeManager.loadThemeE (available : Bool) (s : ThemeState) :
    Except String ThemeState := do
  let saved ← localStorageGetItem available s.pref
  if saved = some "theme-light" then ThemeManager.setLightThemeE available s
  else if saved = some "theme-dark" then ThemeManager.setDarkThemeE available s
  else ThemeManager.setAutoThemeE available s

/-!
## MobileMenu (src/js/script.js lines 155-212)

State: the "show-mobile-nav" class on the document root, the "active"
class on the toggle button, and the aria-expanded attribute on the
button (`none` = attribute absent from the markup).
-/

structure MenuState where
  showNav : Bool
  btnActive : Bool
  aria : Option String
deriving Repr, DecidableEq

/-- Lines 192-199: toggle both classes, then write aria-expanded from
the post-toggle presence of the visibility class (a boolean coerced to
the string "true" or "false" by setAttribute). -/
def MobileMenu.toggle (s : MenuState) : MenuState :=
  let showNav := !s.showNav
  let btnActive := !s.btnActive
  { showNav := showNav, btnActive := btnActive,
    aria := some (if showNav then "true" else "false") }

/-- Lines 201-205. -/
def MobileMenu.open (_s : MenuState) : MenuState :=
  { showNav := true, btnActive := true, aria := some "true" }

/-- Lines 207-211. -/
def MobileMenu.close (_s : MenuState) : MenuState :=
  { showNav := false, btnActive := false, aria := some "false" }

/-- The user events the menu code can observe. A click that lands
outside both the toggle button and the navigation list is
`clickOutsideNav`; `clickNavList` carries the tag name of the click
target inside the list. -/
inductive MenuEvent where
  | clickNavBtn
  | keydownNavBtn (key : String)
  | clickNavList (targetTag : String)
  | clickOutsideNav
  | keydownDocument (key : String)
deriving Repr, DecidableEq

/-- Lines 165-190: dispatch of one event through every listener
`bindEvents` registers. A keydown on the button first runs the button
listener (lines 170-175: Enter or Space toggles) and then bubbles to
the document listener (lines 185-189: Escape closes when open). No
listener at all is registered for clicks outside the navigation, so
such a click leaves the state unchanged. -/
def MobileMenu.handleEvent : MenuEvent → MenuState → MenuState
  | .clickNavBtn, s => MobileMenu.toggle s
  | .keydownNavBtn k, s =>
      let s1 := if k = "Enter" ∨ k = " " then MobileMenu.toggle s else s
      if k = "Escape" ∧ s1.showNav = true then MobileMenu.close s1 else s1
  | .clickNavList tag, s =>
      if tag = "A" ∧ s.showNav = true then MobileMenu.close s else s
  | .clickOutsideNav, s => s
  | .keydownDocument k, s =>
      if k = "Escape" ∧ s.showNav = true then MobileMenu.close s else s

/-!
## BackToTop (src/js/script.js lines 218-253)
-/

def BackToTop.showThreshold : Nat := 300

/-- Lines 238-245: add the "show" class when the scroll offset is at or
above the threshold, remove it otherwise. The result is the new
presence of the "show" class on the control. -/
def BackToTop.checkVisibility (scrollTop : Nat) (_btnShow : Bool) : Bool :=
  if scrollTop ≥ BackToTop.showThreshold then true
  else false

/-!
## LazyLoader (src/js/script.js lines 289-338)

An element tagged with the lazy-load marker attribute, with its
`data-img` attribute (`none` = absent), its inline background image and
the "loaded" class.
-/

structure LazyElem where
  dataImg : Option String
  backgroundImage : Option String
  loaded : Bool
deriving Repr, DecidableEq

/-- Lines 322-331: read `element.dataset.img`; if it is falsy (absent
attribute or empty string) return without doing anything; otherwise set
the background image and add the "loaded" class (the style mutation is
scheduled on the next animation frame; the embedding takes the frame as
having run). -/
def LazyLoader.loadImage (e : LazyElem) : LazyElem :=
  match e.dataImg with
  | none => e
  | some url =>
      if url = "" then e
      else { e with backgroundImage := some ("url(" ++ url ++ ")"), loaded := true }

/-- Lines 333-337: degrade by running `loadImage` on every tagged
element. -/
def LazyLoader.loadAllImages (es : List LazyElem) : List LazyElem :=
  es.map LazyLoader.loadImage

/-- Lines 290-298: when the intersection-observation capability is
absent, fall back to `loadAllImages`; otherwise register observers,
which loads nothing immediately (deferred until intersection). -/
def LazyLoader.init (hasIntersectionObserver : Bool) (es : List LazyElem) :
    List LazyElem :=
  if hasIntersectionObserver then es
  else LazyLoader.loadAllImages es

/-!
## SmoothScroll (src/js/script.js lines 344-370)

The document: the set of element ids present on the page. A click is
described by the href of the closest enclosing anchor whose href starts
with "#" (`none` when the click is not on such an anchor). The outcome
records the three observable effects of the handler.
-/

structure SmoothDoc where
  elementIds : List String
deriving Repr, DecidableEq

structure ClickOutcome where
  prevented : Bool
  scrolled : Bool
  urlChanged : Bool
deriving Repr, DecidableEq

def noOutcome : ClickOutcome :=
  { prevented := false, scrolled := false, urlChanged := false }

/-- Lines 346-368: if no matching anchor encloses the target, return;
if the href is the bare "#", return; if the fragment resolves to no
element in the document, return; otherwise preventDefault, smooth
scroll, and push the fragment onto the history. -/
def SmoothScroll.handleClick (doc : SmoothDoc) (link : Option String) : ClickOutcome :=
  match link with
  | none => noOutcome
  | some href =>
      if href = "#" then noOutcome
      else
        let frag := href.drop 1
        if doc.elementIds.contains frag then
          { prevented := true, scrolled := true, urlChanged := true }
        else noOutcome

/-!
## CodeCopy (src/js/script.js lines 376-412)

The injected button: its label and whether it carries the "copied"
class. A click schedules a timer; the timer actions are the two
2000 ms reversion callbacks of lines 396-399 and 403-405.
-/

structure CopyBtn where
  label : String
  copied : Bool
deriving Repr, DecidableEq

inductive TimerAction where
  | revertSuccess
  | revertFailure
deriving Repr, DecidableEq

/-- Outcome of one click on the copy button: the button state after the
synchronous part of the handler, whether an error was logged, and the
scheduled timers (delay in milliseconds, paired with their action). -/
structure CopyClickResult where
  btn : CopyBtn
  logged : Bool
  timers : List (Nat × TimerAction)
deriving Repr, DecidableEq

/-- Lines 388-407: the click handler, with the result of the awaited
clipboard write passed in. The try/catch is the match: a rejected write
is caught, logged via console.error, the label set to "Failed" and a
2000 ms reversion scheduled; a resolved write sets "Copied!", adds the
"copied" class and schedules its own 2000 ms reversion. -/
def CodeCopy.handleClick (clipboardWrite : Except String Unit) (b : CopyBtn) :
    CopyClickResult :=
  match clipboardWrite with
  | .ok _ =>
      { btn := { b with label := "Copied!", copied := true },
        logged := false,
        timers := [(2000, .revertSuccess)] }
  | .error _ =>
      { btn := { b with label := "Failed" },
        logged := true,
        timers := [(2000, .revertFailure)] }

/-- Lines 396-399 and 403-405: firing a scheduled reversion. The
success callback also removes the "copied" class; the failure callback
only restores the label. -/
def CodeCopy.fireTimer : TimerAction → CopyBtn → CopyBtn
  | .revertSuccess, b => { b with label := "Copy", copied := false }
  | .revertFailure, b => { b with label := "Copy" }

/-!
## Derived predicates about the theme selector buttons
-/

/-- Number of selector buttons carrying the "active" class. -/
def activeButtons (s : ThemeState) : Nat :=
  (if s.lightBtn = some true then 1 else 0) +
  (if s.darkBtn = some true then 1 else 0) +
  (if s.autoBtn = some true then 1 else 0)

/-- The button invariant: at most one selector button is active, and
when all three buttons are present the active one is exactly the button
matching the stored preference, any unrecognised or absent value
activating the auto button. -/
def activeButtonInv (s : ThemeState) : Prop :=
  activeButtons s ≤ 1 ∧
  (s.lightBtn ≠ none → s.darkBtn ≠ none → s.autoBtn ≠ none →
    s.lightBtn = some (normTheme s.pref == "theme-light") ∧
    s.darkBtn = some (normTheme s.pref == "theme-dark") ∧
    s.autoBtn = some (!(normTheme s.pref == "theme-light") &&
                      !(normTheme s.pref == "theme-dark")))
lemma updateActiveButtonCore_light (cur : Option String) (s : ThemeState) :
    (ThemeManager.updateActiveButtonCore cur s).light = s.light := by
  unfold ThemeManager.updateActiveButtonCore
  dsimp only
  split <;> try split
  all_goals rfl

lemma updateActiveButtonCore_dark (cur : Option String) (s : ThemeState) :
    (ThemeManager.updateActiveButtonCore cur s).dark = s.dark := by
  unfold ThemeManager.updateActiveButtonCore
  dsimp only
  split <;> try split
  all_goals rfl

lemma updateActiveButtonCore_pref (cur : Option String) (s : ThemeState) :
    (ThemeManager.updateActiveButtonCore cur s).pref = s.pref := by
  unfold ThemeManager.updateActiveButtonCore
  dsimp only
  split <;> try split
  all_goals rfl

lemma themeInv_setLight (s : ThemeState) : ThemeInv (ThemeManager.setLightTheme s) := by
  unfold ThemeInv ThemeManager.setLightTheme ThemeManager.updateActiveButton
  simp [updateActiveButtonCore_light, updateActiveButtonCore_dark,
    updateActiveButtonCore_pref, strFalsy]

lemma themeInv_setDark (s : ThemeState) : ThemeInv (ThemeManager.setDarkTheme s) := by
  unfold ThemeInv ThemeManager.setDarkTheme ThemeManager.updateActiveButton
  simp [updateActiveButtonCore_light, updateActiveButtonCore_dark,
    updateActiveButtonCore_pref, strFalsy]

lemma themeInv_setAuto (s : ThemeState) : ThemeInv (ThemeManager.setAutoTheme s) := by
  unfold ThemeInv ThemeManager.setAutoTheme ThemeManager.updateActiveButton
  simp [updateActiveButtonCore_light, updateActiveButtonCore_dark,
    updateActiveButtonCore_pref, strFalsy]

lemma themeInv_loadTheme (s : ThemeState) : ThemeInv (ThemeManager.loadTheme s) := by
  unfold ThemeManager.loadTheme
  split
  · exact themeInv_setLight s
  · split
    · exact themeInv_setDark s
    · exact themeInv_setAuto s

lemma themeInv_osChange (m : Bool) (s : ThemeState) (h : ThemeInv s) :
    ThemeInv (ThemeManager.osColorSchemeChange m s) := by
  unfold ThemeManager.osColorSchemeChange
  rcases h with ⟨h1, h2⟩
  split
  · have hl : s.light = false := h2 (by assumption)
    cases m <;> simp [ThemeInv, hl, strFalsy]
  · exact ⟨h1, h2⟩

lemma themeInv_applyOp (op : ThemeOp) (s : ThemeState) (h : ThemeInv s) :
    ThemeInv (ThemeManager.applyOp op s) := by
  cases op with
  | load => exact themeInv_loadTheme s
  | setLight => exact themeInv_setLight s
  | setDark => exact themeInv_setDark s
  | setAuto => exact themeInv_setAuto s
  | osChange m => exact themeInv_osChange m s h

lemma themeInv_run (ops : List ThemeOp) (s : ThemeState) (h : ThemeInv s) :
    ThemeInv (ThemeManager.run ops s) := by
  induction ops generalizing s with
  | nil => exact h
  | cons op rest ih => exact ih _ (themeInv_applyOp op s h)


lemma updateActiveButtonCore_lightBtn (cur : Option String) (s : ThemeState) :
    (ThemeManager.updateActiveButtonCore cur s).lightBtn =
      s.lightBtn.map (fun _ => normTheme cur == "theme-light") := by
  unfold ThemeManager.updateActiveButtonCore
  dsimp only
  split
  · rename_i h; simp_all [Option.map_map]
  · rename_i h1
    split
    · rename_i h2; simp_all [Option.map_map]
    · rename_i h2
      have hb1 : (normTheme cur == "theme-light") = false := beq_eq_false_iff_ne.mpr h1
      have hb2 : (normTheme cur == "theme-dark") = false := beq_eq_false_iff_ne.mpr h2
      simp [Option.map_map, hb1, hb2]

lemma updateActiveButtonCore_darkBtn (cur : Option String) (s : ThemeState) :
    (ThemeManager.updateActiveButtonCore cur s).darkBtn =
      s.darkBtn.map (fun _ => normTheme cur == "theme-dark") := by
  unfold ThemeManager.updateActiveButtonCore
  dsimp only
  split
  · rename_i h; simp_all [Option.map_map]
  · rename_i h1
    split
    · rename_i h2; simp_all [Option.map_map]
    · rename_i h2
      have hb1 : (normTheme cur == "theme-light") = false := beq_eq_false_iff_ne.mpr h1
      have hb2 : (normTheme cur == "theme-dark") = false := beq_eq_false_iff_ne.mpr h2
      simp [Option.map_map, hb1, hb2]

lemma updateActiveButtonCore_autoBtn (cur : Option String) (s : ThemeState) :
    (ThemeManager.updateActiveButtonCore cur s).autoBtn =
      s.autoBtn.map (fun _ => !(normTheme cur == "theme-light") &&
                              !(normTheme cur == "theme-dark")) := by
  unfold ThemeManager.updateActiveButtonCore
  dsimp only
  split
  · rename_i h; simp_all [Option.map_map]
  · rename_i h1
    split
    · rename_i h2; simp_all [Option.map_map]
    · rename_i h2
      have hb1 : (normTheme cur == "theme-light") = false := beq_eq_false_iff_ne.mpr h1
      have hb2 : (normTheme cur == "theme-dark") = false := beq_eq_false_iff_ne.mpr h2
      simp [Option.map_map, hb1, hb2]

lemma activeButtons_le_one (s : ThemeState) :
    activeButtons (ThemeManager.updateActiveButton s) ≤ 1 := by
  unfold activeButtons ThemeManager.updateActiveButton
  rw [updateActiveButtonCore_lightBtn, updateActiveButtonCore_darkBtn,
    updateActiveButtonCore_autoBtn]
  rcases s.lightBtn with _ | lb <;> rcases s.darkBtn with _ | db <;>
    rcases s.autoBtn with _ | ab <;>
    rcases hb1 : (normTheme s.pref == "theme-light") <;>
    rcases hb2 : (normTheme s.pref == "theme-dark") <;>
    simp_all

lemma activeButtonInv_updateActiveButton (s : ThemeState) :
    activeButtonInv (ThemeManager.updateActiveButton s) := by
  refine ⟨activeButtons_le_one s, fun h1 h2 h3 => ?_⟩
  unfold ThemeManager.updateActiveButton at *
  rw [updateActiveButtonCore_lightBtn, updateActiveButtonCore_darkBtn,
    updateActiveButtonCore_autoBtn, updateActiveButtonCore_pref] at *
  rcases hl : s.lightBtn with _ | lb <;> rcases hd : s.darkBtn with _ | db <;>
    rcases ha : s.autoBtn with _ | ab <;> simp_all

lemma setLightTheme_state (s : ThemeState) :
    (ThemeManager.setLightTheme s).light = true ∧
    (ThemeManager.setLightTheme s).dark = false ∧
    (ThemeManager.setLightTheme s).pref = some "theme-light" := by
  unfold ThemeManager.setLightTheme ThemeManager.updateActiveButton
  refine ⟨?_, ?_, ?_⟩
  · rw [updateActiveButtonCore_light]
  · rw [updateActiveButtonCore_dark]
  · rw [updateActiveButtonCore_pref]

lemma setDarkTheme_state (s : ThemeState) :
    (ThemeManager.setDarkTheme s).light = false ∧
    (ThemeManager.setDarkTheme s).dark = true ∧
    (ThemeManager.setDarkTheme s).pref = some "theme-dark" := by
  unfold ThemeManager.setDarkTheme ThemeManager.updateActiveButton
  refine ⟨?_, ?_, ?_⟩
  · rw [updateActiveButtonCore_light]
  · rw [updateActiveButtonCore_dark]
  · rw [updateActiveButtonCore_pref]

lemma setAutoTheme_state (s : ThemeState) :
    (ThemeManager.setAutoTheme s).light = false ∧
    (ThemeManager.setAutoTheme s).dark = false ∧
    (ThemeManager.setAutoTheme s).pref = some "auto" := by
  unfold ThemeManager.setAutoTheme ThemeManager.updateActiveButton
  refine ⟨?_, ?_, ?_⟩
  · rw [updateActiveButtonCore_light]
  · rw [updateActiveButtonCore_dark]
  · rw [updateActiveButtonCore_pref]

/-- C1, counterexample: the claim asserts that whenever the stored
preference is "auto" (or absent) neither presentation class is present.
Starting from a clean page, loading the theme with no stored preference
stores "auto" with both classes absent, and one OS color-scheme change
event reporting dark then adds "theme-dark" while the stored preference
is still "auto" (src/js/script.js lines 139-145). -/
theorem themeManager_auto_neither_class_counterexample :
    (ThemeManager.run [ThemeOp.osChange true]
      (ThemeManager.loadTheme ⟨false, false, none, none, none, none⟩)).pref
        = some "auto" ∧
    (ThemeManager.run [ThemeOp.osChange true]
      (ThemeManager.loadTheme ⟨false, false, none, none, none, none⟩)).dark
        = true := by
  decide

/-- C1, amended: for every sequence of theme operations run after a
`loadTheme`, at most one of the classes "theme-light" and "theme-dark"
is present on the document root, and whenever the stored preference is
"auto" (or absent) the class "theme-light" is not present — the dark
class may be present in auto mode, mirroring the OS color-scheme
signal. -/
theorem themeManager_class_invariant (s0 : ThemeState) (ops : List ThemeOp) :
    ¬((ThemeManager.run ops (ThemeManager.loadTheme s0)).light = true ∧
      (ThemeManager.run ops (ThemeManager.loadTheme s0)).dark = true) ∧
    (((ThemeManager.run ops (ThemeManager.loadTheme s0)).pref = none ∨
      (ThemeManager.run ops (ThemeManager.loadTheme s0)).pref = some "auto") →
      (ThemeManager.run ops (ThemeManager.loadTheme s0)).light = false) := by
  obtain ⟨h1, h2⟩ := themeInv_run ops _ (themeInv_loadTheme s0)
  refine ⟨h1, fun hp => h2 ?_⟩
  rcases hp with hp | hp
  · exact Or.inl (by simp [strFalsy, hp])
  · exact Or.inr hp

/-- C1, witness for the amended theorem at a concrete state and
operation sequence. -/
theorem themeManager_class_invariant_witness :
    (ThemeManager.run [ThemeOp.osChange true]
      (ThemeManager.loadTheme ⟨false, false, none, none, none, none⟩)).light
        = false :=
  (themeManager_class_invariant ⟨false, false, none, none, none, none⟩
    [ThemeOp.osChange true]).2 (Or.inr (by decide))

/-- C4, counterexample: the claim asserts that with local storage
unavailable every ThemeManager operation silently no-ops. The code has
no guard and no try/catch around any localStorage access, so the
storage error propagates out of `loadTheme` (the `getItem` on line 80
raises): the operation raises instead of silently no-opping. -/
theorem themeManager_storage_noop_counterexample :
    ThemeManager.loadThemeE false ⟨false, false, none, none, none, none⟩
      = Except.error storageErr := by
  rfl

/-- C4, amended: in an environment where local persistent storage is
unavailable, every ThemeManager operation (loadTheme, setLightTheme,
setDarkTheme, setAutoTheme, updateActiveButton) propagates the storage
error — none of them completes successfully, and none silently
no-ops. -/
theorem themeManager_storage_unavailable_raises (s : ThemeState) :
    ThemeManager.loadThemeE false s = Except.error storageErr ∧
    ThemeManager.setLightThemeE false s = Except.error storageErr ∧
    ThemeManager.setDarkThemeE false s = Except.error storageErr ∧
    ThemeManager.setAutoThemeE false s = Except.error storageErr ∧
    ThemeManager.updateActiveButtonE false s = Except.error storageErr :=
  ⟨rfl, rfl, rfl, rfl, rfl⟩

/-- C5: setting a theme and then re-invoking loadTheme re-applies
exactly the same class state: light gives "theme-light" present and
"theme-dark" absent; dark is the mirror case; auto leaves both classes
absent. -/
theorem themeManager_set_then_load_roundtrip (s : ThemeState) :
    (ThemeManager.loadTheme (ThemeManager.setLightTheme s)).light = true ∧
    (ThemeManager.loadTheme (ThemeManager.setLightTheme s)).dark = false ∧
    (ThemeManager.loadTheme (ThemeManager.setDarkTheme s)).light = false ∧
    (ThemeManager.loadTheme (ThemeManager.setDarkTheme s)).dark = true ∧
    (ThemeManager.loadTheme (ThemeManager.setAutoTheme s)).light = false ∧
    (ThemeManager.loadTheme (ThemeManager.setAutoTheme s)).dark = false := by
  obtain ⟨lL, lD, lP⟩ := setLightTheme_state s
  obtain ⟨dL, dD, dP⟩ := setDarkTheme_state s
  obtain ⟨aL, aD, aP⟩ := setAutoTheme_state s
  refine ⟨?_, ?_, ?_, ?_, ?_, ?_⟩ <;>
    simp [ThemeManager.loadTheme, lP, dP, aP,
      (setLightTheme_state _).1, (setLightTheme_state _).2.1,
      (setDarkTheme_state _).1, (setDarkTheme_state _).2.1,
      (setAutoTheme_state _).1, (setAutoTheme_state _).2.1]

/-- C10: after any of loadTheme, setLightTheme, setDarkTheme or
setAutoTheme, at most one of the three theme selector buttons carries
the "active" class, and when all three buttons are present the active
one is exactly the button matching the stored preference — any stored
value other than "theme-light" or "theme-dark" (including an absent or
empty value) activating the auto button. -/
theorem themeManager_active_button_invariant (s : ThemeState) :
    activeButtonInv (ThemeManager.loadTheme s) ∧
    activeButtonInv (ThemeManager.setLightTheme s) ∧
    activeButtonInv (ThemeManager.setDarkTheme s) ∧
    activeButtonInv (ThemeManager.setAutoTheme s) := by
  have hload : activeButtonInv (ThemeManager.loadTheme s) := by
    unfold ThemeManager.loadTheme
    split
    · exact activeButtonInv_updateActiveButton _
    · split
      · exact activeButtonInv_updateActiveButton _
      · exact activeButtonInv_updateActiveButton _
  exact ⟨hload, activeButtonInv_updateActiveButton _,
    activeButtonInv_updateActiveButton _, activeButtonInv_updateActiveButton _⟩

/-- C10, witness: with all three buttons present and the light theme
selected, the light button ends active. -/
theorem themeManager_active_button_invariant_witness :
    (ThemeManager.setLightTheme
      ⟨false, false, none, some false, some false, some true⟩).lightBtn
        = some true := by
  have h := (themeManager_active_button_invariant
    ⟨false, false, none, some false, some false, some true⟩).2.1
  have hm := h.2 (by decide) (by decide) (by decide)
  exact hm.1.trans (by decide)

/-- C8: for every scroll offset and every previous state of the
control, checkVisibility leaves the "show" class present if and only if
the offset is at least 300, and in particular shows the control at
exactly offset 300. -/
theorem backToTop_checkVisibility_iff (n : Nat) (b : Bool) :
    (BackToTop.checkVisibility n b = true ↔ 300 ≤ n) ∧
    BackToTop.checkVisibility 300 b = true := by
  constructor
  · unfold BackToTop.checkVisibility BackToTop.showThreshold
    split <;> simp_all
  · rfl

/-- C9, counterexample: the claim asserts the two-toggle round trip for
every starting state. When the aria-expanded attribute is initially
absent from the markup, two toggles leave it set to the string "false"
(line 198 writes it unconditionally), so the attribute does not return
to its original (absent) value. -/
theorem mobileMenu_toggle_twice_counterexample :
    MobileMenu.toggle (MobileMenu.toggle ⟨false, false, none⟩)
      ≠ (⟨false, false, none⟩ : MenuState) ∧
    (MobileMenu.toggle (MobileMenu.toggle ⟨false, false, none⟩)).aria
      = some "false" := by
  decide

/-- C9, amended: two toggles always return the visibility class on the
root element and the "active" class on the button to their original
values; the aria-expanded attribute also returns to its original value
provided it initially reflected the visibility class (the string "true"
when the class is present, "false" when absent), in which case the
whole state round-trips. -/
theorem mobileMenu_toggle_twice_roundtrip (s : MenuState) :
    (MobileMenu.toggle (MobileMenu.toggle s)).showNav = s.showNav ∧
    (MobileMenu.toggle (MobileMenu.toggle s)).btnActive = s.btnActive ∧
    (s.aria = some (if s.showNav then "true" else "false") →
      MobileMenu.toggle (MobileMenu.toggle s) = s) := by
  obtain ⟨sn, ba, ar⟩ := s
  refine ⟨by simp [MobileMenu.toggle], by simp [MobileMenu.toggle], fun h => ?_⟩
  cases sn <;> simp_all [MobileMenu.toggle]

/-- C9, witness for the amended theorem: a closed menu with
aria-expanded "false" round-trips exactly. -/
theorem mobileMenu_toggle_twice_roundtrip_witness :
    MobileMenu.toggle (MobileMenu.toggle ⟨false, false, some "false"⟩)
      = (⟨false, false, some "false"⟩ : MenuState) :=
  (mobileMenu_toggle_twice_roundtrip ⟨false, false, some "false"⟩).2.2 rfl

/-- C2, counterexample: the claim asserts that with the menu open a
click outside the navigation closes it. bindEvents (lines 165-190)
registers no listener for clicks outside the navigation, so such a
click leaves the menu open with the visibility class still present and
aria-expanded still "true". -/
theorem mobileMenu_outside_click_counterexample :
    MobileMenu.handleEvent MenuEvent.clickOutsideNav ⟨true, true, some "true"⟩
      = (⟨true, true, some "true"⟩ : MenuState) ∧
    (MobileMenu.handleEvent MenuEvent.clickOutsideNav
      ⟨true, true, some "true"⟩).showNav = true := by
  decide

/-- C2, amended: when the mobile menu is open it closes (visibility
class removed, aria-expanded set to "false") on a navigation-link click
and on the Escape key, but a click outside the navigation leaves the
state unchanged — no outside-click handler exists. -/
theorem mobileMenu_close_events (s : MenuState) (hopen : s.showNav = true) :
    MobileMenu.handleEvent (MenuEvent.clickNavList "A") s = MobileMenu.close s ∧
    MobileMenu.handleEvent (MenuEvent.keydownDocument "Escape") s
      = MobileMenu.close s ∧
    (MobileMenu.close s).showNav = false ∧
    (MobileMenu.close s).aria = some "false" ∧
    MobileMenu.handleEvent MenuEvent.clickOutsideNav s = s := by
  refine ⟨?_, ?_, rfl, rfl, rfl⟩ <;> simp [MobileMenu.handleEvent, hopen]

/-- C2, witness for the amended theorem at a concrete open state. -/
theorem mobileMenu_close_events_witness :
    MobileMenu.handleEvent (MenuEvent.keydownDocument "Escape")
      ⟨true, true, some "true"⟩
      = MobileMenu.close ⟨true, true, some "true"⟩ :=
  (mobileMenu_close_events ⟨true, true, some "true"⟩ rfl).2.1

/-- C3, counterexample: the claim asserts that without the
intersection-observation capability every tagged element is loaded
("no element left unloaded"). loadImage (lines 322-324) returns early
when the data-img attribute is absent, so a tagged element without the
attribute stays unloaded: no background image and no "loaded" class. -/
theorem lazyLoader_fallback_counterexample :
    LazyLoader.init false [⟨none, none, false⟩] = [⟨none, none, false⟩] ∧
    (⟨none, none, false⟩ : LazyElem).loaded = false ∧
    (⟨none, none, false⟩ : LazyElem).backgroundImage = none := by
  decide

/-- C3, amended: when the intersection-observation capability is
unavailable, init runs loadImage over every tagged element; every
element whose data-img attribute holds a non-empty URL receives the
background image built from that URL and the "loaded" class, while an
element with an absent or empty data-img attribute is left unchanged. -/
theorem lazyLoader_fallback_loads_all (es : List LazyElem) (e : LazyElem)
    (url : String) (hurl : e.dataImg = some url) (hne : url ≠ "") :
    LazyLoader.init false es = es.map LazyLoader.loadImage ∧
    (LazyLoader.loadImage e).loaded = true ∧
    (LazyLoader.loadImage e).backgroundImage = some ("url(" ++ url ++ ")") ∧
    (∀ e2 : LazyElem, e2.dataImg = none ∨ e2.dataImg = some "" →
      LazyLoader.loadImage e2 = e2) := by
  refine ⟨rfl, ?_, ?_, ?_⟩
  · simp [LazyLoader.loadImage, hurl, hne]
  · simp [LazyLoader.loadImage, hurl, hne]
  · rintro e2 (h | h) <;> simp [LazyLoader.loadImage, h]

/-- C3, witness for the amended theorem at a concrete element list. -/
theorem lazyLoader_fallback_loads_all_witness :
    (LazyLoader.loadImage ⟨some "a.png", none, false⟩).loaded = true :=
  (lazyLoader_fallback_loads_all [⟨some "a.png", none, false⟩]
    ⟨some "a.png", none, false⟩ "a.png" rfl (by decide)).2.1

/-- C6: a click on an anchor link whose href is the bare "#", or whose
fragment identifier resolves to no element in the document, falls
through: the handler returns without calling preventDefault, without
scrolling and without changing the URL. -/
theorem smoothScroll_missing_target_falls_through (doc : SmoothDoc)
    (href : String)
    (h : href = "#" ∨ doc.elementIds.contains (href.drop 1) = false) :
    SmoothScroll.handleClick doc (some href) = noOutcome ∧
    (SmoothScroll.handleClick doc (some href)).prevented = false ∧
    (SmoothScroll.handleClick doc (some href)).scrolled = false ∧
    (SmoothScroll.handleClick doc (some href)).urlChanged = false := by
  have heq : SmoothScroll.handleClick doc (some href) = noOutcome := by
    unfold SmoothScroll.handleClick
    by_cases hh : href = "#"
    · simp [hh]
    · rcases h with h | h
      · exact absurd h hh
      · have h2 : ¬(href.drop 1 ∈ doc.elementIds) := by simpa using h
        simp [hh, h2]
  exact ⟨heq, by simp [heq, noOutcome], by simp [heq, noOutcome],
    by simp [heq, noOutcome]⟩

/-- C6, witness: a link to a fragment with no matching element in a
document containing only the id "top". -/
theorem smoothScroll_missing_target_falls_through_witness :
    SmoothScroll.handleClick ⟨["top"]⟩ (some "#missing") = noOutcome :=
  (smoothScroll_missing_target_falls_through ⟨["top"]⟩ "#missing"
    (Or.inr (by decide))).1

/-- C7: when the clipboard write rejects, the failure is caught by the
try/catch (the handler completes with a normal result), the error is
logged, the button label shows "Failed" with a single 2000 ms reversion
timer scheduled, and firing that timer restores the default label
"Copy". -/
theorem codeCopy_failure_path (err : String) (b : CopyBtn) :
    (CodeCopy.handleClick (Except.error err) b).logged = true ∧
    (CodeCopy.handleClick (Except.error err) b).btn.label = "Failed" ∧
    (CodeCopy.handleClick (Except.error err) b).timers
      = [(2000, TimerAction.revertFailure)] ∧
    (CodeCopy.fireTimer TimerAction.revertFailure
      (CodeCopy.handleClick (Except.error err) b).btn).label = "Copy" :=
  ⟨rfl, rfl, rfl, rfl⟩
